import Mathlib

/-!
Verification of the lifecycle-orchestrator core of app.js
(common-hosted-email-service): the health model, the readiness gate
middleware, the periodic connection prober, and the shutdown protocol.

The embedding follows the source file app.js:

* `AppState` mirrors the module-level `state` object (lines 20-29).
* `gateMiddleware` mirrors the readiness-gate middleware (lines 68-76).
* `applyInitThen` / `recomputeReady` mirror the `.then` and `.finally`
  callbacks of `initializeConnections` (lines 189-204).
* `checkBatchUpdate` / `checkBatchEffects` mirror the completion callback
  of the probe batch in `checkConnections` (lines 230-241), including the
  `process.exitCode = 1; shutdown()` branch.
* `stepLabel` / `runTrace` give a labelled transition system over the
  state-mutating callbacks of the program; a `checkBatch` label is the
  completion of a periodic probe batch (the source guards only the start
  of a batch on `state.shutdown`, not its completion).
* `asyncClose` / `closeChain` / `cleanupTimers` mirror the nested
  close-callback chain and the hard-exit timer in `cleanup`
  (lines 160-169); a close that never completes is a `none` duration.
* `simStep` / `simRun` / `cleanupCount` give a discrete-event simulation
  of the `shutdown()` trigger (lines 141-147) and `cleanup` (line 155):
  a trigger schedules `cleanup` 5 time units later only when
  `state.shutdown` is still false, and `cleanup` is what sets the flag.
-/

/-- Mirrors `state.connections` (app.js lines 21-25): per-dependency
health booleans, in the insertion order data, email, queue. -/
structure Connections where
  data : Bool
  email : Bool
  queue : Bool
deriving DecidableEq, Repr

/-- Mirrors `Object.values(state.connections)`: the values in the
insertion order of the object literal. -/
def connValues (c : Connections) : List Bool :=
  [c.data, c.email, c.queue]

/-- Mirrors the `state` object (app.js lines 20-29) minus the
connections record already split out. -/
structure AppState where
  connections : Connections
  mounted : Bool
  ready : Bool
  shutdown : Bool
deriving DecidableEq, Repr

/-- Initial value of `state` (app.js lines 20-29): data and queue
unhealthy, email assumed healthy, all flags false. -/
def initialAppState : AppState :=
  { connections := { data := false, email := true, queue := false }
    mounted := false
    ready := false
    shutdown := false }

/-- Outcome of the gate middleware for one request: a 503 response with
a detail string, or passing the request to the next handler. -/
inductive GateOutcome
  | respond503 (details : String)
  | next
deriving DecidableEq, Repr

/-- Mirrors the readiness-gate middleware (app.js lines 68-76). -/
def gateMiddleware (s : AppState) : GateOutcome :=
  if s.shutdown then GateOutcome.respond503 "Server is shutting down"
  else if !s.ready || !s.mounted then GateOutcome.respond503 "Server is not ready"
  else GateOutcome.next

/-- The spec's abstract gate verdicts. -/
inductive GateVerdict
  | Shutdown
  | NotReady
  | Admit
deriving DecidableEq, Repr

/-- Modelled from the spec's words (for the refinement claim C1):
`evaluateGate()` returns `Shutdown` if `shutdown==true`; else `NotReady`
if `!ready || !mounted`; else `Admit`. -/
def evaluateGate (s : AppState) : GateVerdict :=
  if s.shutdown then GateVerdict.Shutdown
  else if !s.ready || !s.mounted then GateVerdict.NotReady
  else GateVerdict.Admit

/-- Modelled from the spec's words: the response required for each
verdict — 503 with a detail distinguishing shutting down from not
ready, or proceeding unmodified. -/
def renderVerdict : GateVerdict → GateOutcome
  | GateVerdict.Shutdown => GateOutcome.respond503 "Server is shutting down"
  | GateVerdict.NotReady => GateOutcome.respond503 "Server is not ready"
  | GateVerdict.Admit => GateOutcome.next

/-- Results of the startup check batch (app.js lines 180-187):
`results[0]` from `dataConnection.checkAll()`, `results[1]` from
`queueConnection.checkReachable()`, and `results[2]` from
`emailConnection.checkConnection()` only in production mode
(`none` models `undefined`). -/
structure InitResults where
  data : Bool
  queue : Bool
  email : Option Bool
deriving DecidableEq, Repr

/-- Mirrors the `.then` callback of `initializeConnections`
(app.js lines 190-196): writes the connection booleans; email only
when `results[2] !== undefined`. -/
def applyInitThen (s : AppState) (r : InitResults) : AppState :=
  { s with connections :=
      { data := r.data
        queue := r.queue
        email := match r.email with
          | some e => e
          | none => s.connections.email } }

/-- Mirrors `state.ready = Object.values(state.connections).every(x => x)`
(app.js lines 202 and 233). -/
def recomputeReady (s : AppState) : AppState :=
  { s with ready := (connValues s.connections).all (fun x => x) }

/-- Mirrors the state updates of the probe-batch completion callback in
`checkConnections` (app.js lines 231-234): write data and queue from the
results, recompute ready over the connections record, set mounted to the
queue result. -/
def checkBatchUpdate (s : AppState) (rData rQueue : Bool) : AppState :=
  let s1 := { s with connections :=
    { s.connections with data := rData, queue := rQueue } }
  let s2 := recomputeReady s1
  { s2 with mounted := rQueue }

/-- Process-level state: the app state plus `process.exitCode`
(0 unless set to 1 by a failure path). -/
structure ProcState where
  app : AppState
  exitCode : Nat
deriving DecidableEq, Repr

/-- Initial process state. -/
def initialProcState : ProcState :=
  { app := initialAppState, exitCode := 0 }

/-- Mirrors the full probe-batch completion callback
(app.js lines 230-241): the state updates, then
`if (!state.ready) { process.exitCode = 1; shutdown(); }`.
The returned boolean records whether `shutdown()` was invoked. -/
def checkBatchEffects (p : ProcState) (rData rQueue : Bool) : ProcState × Bool :=
  let a := checkBatchUpdate p.app rData rQueue
  if a.ready then ({ p with app := a }, false)
  else ({ app := a, exitCode := 1 }, true)

/-- Mirrors the guard `if (!state.shutdown)` at the top of
`checkConnections` (app.js line 224): whether a tick starts a probe
batch at all. -/
def checkConnectionsStarts (s : AppState) : Bool :=
  !s.shutdown

/-- Mirrors the guard `if (!state.shutdown) setTimeout(cleanup, 5000)`
inside `shutdown()` (app.js line 146): whether a trigger schedules the
cleanup. -/
def shutdownSchedulesCleanup (s : AppState) : Bool :=
  !s.shutdown

/-- Labels for the state-mutating callbacks of app.js. `checkBatch` is
the completion of a periodic probe batch; `cleanupRun` is the body of
`cleanup` setting `state.shutdown = true` (line 155); `signalTrigger`
is `shutdown()` itself, which mutates no state (it pauses the queue and
schedules cleanup); `initCatch` is the catch branch of
`initializeConnections` (lines 205-211). -/
inductive AppLabel
  | initThen (r : InitResults)
  | initCatch
  | initFinally
  | checkBatch (rData rQueue : Bool)
  | cleanupRun
  | signalTrigger
deriving DecidableEq, Repr

/-- The effect of one callback on the process state. -/
def stepLabel (p : ProcState) (l : AppLabel) : ProcState :=
  match l with
  | AppLabel.initThen r => { p with app := applyInitThen p.app r }
  | AppLabel.initCatch =>
      if p.app.ready then p else { p with exitCode := 1 }
  | AppLabel.initFinally => { p with app := recomputeReady p.app }
  | AppLabel.checkBatch rData rQueue => (checkBatchEffects p rData rQueue).1
  | AppLabel.cleanupRun => { p with app := { p.app with shutdown := true } }
  | AppLabel.signalTrigger => p

/-- Run a sequence of callbacks. -/
def runTrace (p : ProcState) : List AppLabel → ProcState
  | [] => p
  | l :: ls => runTrace (stepLabel p l) ls

/-- Whether a label is a periodic probe-batch completion. -/
def isCheckBatch : AppLabel → Bool
  | AppLabel.checkBatch _ _ => true
  | _ => false

/-- Observable actions during cleanup: initiating each dependency close
and calling `process.exit()`. -/
inductive Act
  | closeQueue
  | closeEmail
  | closeData
  | procExit
deriving DecidableEq, Repr

/-- One asynchronous close call: the action is initiated at time `t`;
when the close completes after duration `d` the continuation runs at
`t + d`; a `none` duration is a close whose callback never fires. -/
def asyncClose (a : Act) (dur : Option Nat) (t : Nat)
    (k : Nat → List (Nat × Act)) : List (Nat × Act) :=
  (t, a) :: (match dur with
    | some d => k (t + d)
    | none => [])

/-- Mirrors the nested close-callback chain of `cleanup`
(app.js lines 160-166): queue close, whose completion callback starts
the email close, whose completion callback starts the data close, whose
completion callback calls `process.exit()`. -/
def closeChain (dq de dd : Option Nat) (t : Nat) : List (Nat × Act) :=
  asyncClose Act.closeQueue dq t (fun t1 =>
    asyncClose Act.closeEmail de t1 (fun t2 =>
      asyncClose Act.closeData dd t2 (fun t3 =>
        [(t3, Act.procExit)])))

/-- Mirrors the timed events scheduled by `cleanup` starting at time
`t` (app.js lines 160-169): the close chain, plus the unconditional
`setTimeout(() => process.exit(), 10000)` hard-exit timer. -/
def cleanupTimers (dq de dd : Option Nat) (t : Nat) : List (Nat × Act) :=
  closeChain dq de dd t ++ [(t + 10, Act.procExit)]

/-- State of the shutdown-trigger simulation: the `state.shutdown` flag
and how many times `cleanup` has executed. -/
structure TrigSim where
  flag : Bool
  cleanups : Nat
deriving DecidableEq, Repr

/-- Events of the shutdown-trigger simulation: a shutdown trigger
(termination signal or unrecoverable-health path) or a scheduled
`cleanup` execution. -/
inductive SEv
  | trig
  | clean
deriving DecidableEq, Repr

/-- Insert a timed event into a time-sorted event queue. -/
def insertEv (e : Nat × SEv) : List (Nat × SEv) → List (Nat × SEv)
  | [] => [e]
  | f :: rest => if e.1 < f.1 then e :: f :: rest else f :: insertEv e rest

/-- One event of the simulation. A trigger runs `shutdown()`
(app.js lines 141-147): if `state.shutdown` is still false it schedules
`cleanup` 5 time units later, otherwise it does nothing to the
schedule. A `clean` event runs `cleanup` (app.js line 155): it sets the
flag and counts one execution of the close sequence. -/
def simStep (s : TrigSim) (e : Nat × SEv) : TrigSim × List (Nat × SEv) :=
  match e.2 with
  | SEv.trig => if s.flag then (s, []) else (s, [(e.1 + 5, SEv.clean)])
  | SEv.clean => ({ flag := true, cleanups := s.cleanups + 1 }, [])

/-- Drive the simulation: repeatedly dispatch the earliest pending
event, fuelled (each trigger adds at most one event, so the fuel bound
below suffices). -/
def simRun : Nat → TrigSim → List (Nat × SEv) → TrigSim
  | 0, s, _ => s
  | _, s, [] => s
  | Nat.succ fuel, s, e :: q =>
      let r := simStep s e
      simRun fuel r.1 (r.2.foldl (fun acc ev => insertEv ev acc) q)

/-- Number of `cleanup` executions produced by shutdown triggers at the
given (sorted) times. -/
def cleanupCount (trigs : List Nat) : Nat :=
  (simRun (2 * trigs.length + 2) { flag := false, cleanups := 0 }
    (trigs.map (fun t => (t, SEv.trig)))).cleanups

theorem connValues_all (c : Connections) :
    (connValues c).all (fun x => x) = (c.data && c.email && c.queue) := by
  rcases c with ⟨d, e, q⟩
  cases d <;> cases e <;> cases q <;> rfl

/-- C1: the readiness-gate middleware evaluates shutdown first, then
readiness and mountedness, and for every state produces exactly the
response the spec's `evaluateGate` verdict prescribes: 503 with detail
"Server is shutting down" on `Shutdown`, 503 with detail
"Server is not ready" on `NotReady`, and passing the request to the
next handler unmodified on `Admit`. -/
theorem gate_matches_spec_verdicts (s : AppState) :
    gateMiddleware s = renderVerdict (evaluateGate s) := by
  rcases s with ⟨c, m, r, sd⟩
  cases sd <;> cases r <;> cases m <;> rfl

/-- C2: after the startup batch settles (then-plus-finally, or the
catch path where only the finally runs) and after every periodic batch
completion, `ready` equals the conjunction of the three per-dependency
booleans of the connections record; moreover every callback of the
program either leaves `ready` unchanged or sets it to exactly this
recomputation over the connections record. -/
theorem ready_recomputed_as_conjunction (s : AppState) (r : InitResults)
    (rd rq : Bool) (p : ProcState) (l : AppLabel) :
    (recomputeReady (applyInitThen s r)).ready
      = ((applyInitThen s r).connections.data
          && (applyInitThen s r).connections.email
          && (applyInitThen s r).connections.queue)
  ∧ (recomputeReady s).ready
      = (s.connections.data && s.connections.email && s.connections.queue)
  ∧ (checkBatchUpdate s rd rq).ready
      = ((checkBatchUpdate s rd rq).connections.data
          && (checkBatchUpdate s rd rq).connections.email
          && (checkBatchUpdate s rd rq).connections.queue)
  ∧ ((stepLabel p l).app.ready = p.app.ready
      ∨ (stepLabel p l).app.ready
          = ((stepLabel p l).app.connections.data
              && (stepLabel p l).app.connections.email
              && (stepLabel p l).app.connections.queue)) := by
  refine ⟨connValues_all _, connValues_all _, connValues_all _, ?_⟩
  cases l with
  | initThen r0 => exact Or.inl rfl
  | initCatch =>
      simp only [stepLabel]
      split <;> exact Or.inl rfl
  | initFinally => exact Or.inr (connValues_all _)
  | checkBatch rd0 rq0 =>
      refine Or.inr ?_
      simp only [stepLabel, checkBatchEffects]
      split <;> exact connValues_all _
  | cleanupRun => exact Or.inl rfl
  | signalTrigger => exact Or.inl rfl

/-- C4: with completing closes, the cleanup close chain initiates
exactly the sequence queue close, email close, data close, each at the
completion time of the previous one, and requests process termination
at the completion time of the data-store close. -/
theorem close_chain_sequential (dq de dd t : Nat) :
    closeChain (some dq) (some de) (some dd) t
      = [(t, Act.closeQueue), (t + dq, Act.closeEmail),
         (t + dq + de, Act.closeData), (t + dq + de + dd, Act.procExit)] := rfl

/-- C5: whatever the close durations — including closes whose callbacks
never fire (`none`) — the events scheduled by `cleanup` starting at
time `t` always include a `process.exit()` call at time `t + 10`: the
hard-exit timer is unconditional and independent of the chain. -/
theorem hard_exit_always_scheduled (dq de dd : Option Nat) (t : Nat) :
    (t + 10, Act.procExit) ∈ cleanupTimers dq de dd t := by
  simp [cleanupTimers]

/-- C3 (code bug): two shutdown triggers 1 time unit apart both pass
the `if (!state.shutdown)` guard — the flag is only set when `cleanup`
runs 5 units after the first trigger — so `cleanup` and its close
sequence execute twice; with the second trigger after the first
cleanup (6 units later) the guard works and cleanup runs once. -/
theorem shutdown_double_trigger_runs_cleanup_twice :
    cleanupCount [0, 1] = 2 ∧ cleanupCount [0, 6] = 1 := by decide

theorem stepLabel_shutdown_mono (p : ProcState) (l : AppLabel)
    (h : p.app.shutdown = true) : (stepLabel p l).app.shutdown = true := by
  cases l with
  | initThen r => simpa [stepLabel, applyInitThen] using h
  | initCatch =>
      simp only [stepLabel]
      split <;> simpa using h
  | initFinally => simpa [stepLabel, recomputeReady] using h
  | checkBatch rd rq =>
      simp only [stepLabel, checkBatchEffects]
      split <;> simpa [checkBatchUpdate, recomputeReady] using h
  | cleanupRun => rfl
  | signalTrigger => simpa [stepLabel] using h

/-- C6: the shutdown flag is monotonic — once true, it stays true over
every sequence of program callbacks — and from then on every gate
evaluation responds 503 "Server is shutting down", never admitting a
request or reporting not-ready. -/
theorem shutdown_monotonic_gate (p : ProcState) (tr : List AppLabel)
    (h : p.app.shutdown = true) :
    (runTrace p tr).app.shutdown = true
  ∧ gateMiddleware (runTrace p tr).app
      = GateOutcome.respond503 "Server is shutting down" := by
  have hsh : (runTrace p tr).app.shutdown = true := by
    induction tr generalizing p with
    | nil => exact h
    | cons l ls ih => exact ih _ (stepLabel_shutdown_mono p l h)
  exact ⟨hsh, by simp [gateMiddleware, hsh]⟩

/-- Witness for C6 at a concrete post-cleanup state and trace. -/
theorem shutdown_monotonic_gate_witness :
    (runTrace (stepLabel initialProcState AppLabel.cleanupRun)
        [AppLabel.checkBatch true true, AppLabel.signalTrigger]).app.shutdown = true
  ∧ gateMiddleware (runTrace (stepLabel initialProcState AppLabel.cleanupRun)
        [AppLabel.checkBatch true true, AppLabel.signalTrigger]).app
      = GateOutcome.respond503 "Server is shutting down" :=
  shutdown_monotonic_gate (stepLabel initialProcState AppLabel.cleanupRun)
    [AppLabel.checkBatch true true, AppLabel.signalTrigger] (by decide)

/-- C7 (counterexample): a reachable run — startup batch all healthy,
then a periodic batch with the queue healthy, then a periodic batch
with the queue unhealthy — takes `mounted` from true back to false
while `shutdown` is still false (the failed batch only schedules
cleanup; the flag is not yet set when `mounted` is overwritten). -/
theorem mounted_reverts_while_not_shutdown :
    (runTrace initialProcState [AppLabel.initThen ⟨true, true, none⟩,
        AppLabel.initFinally, AppLabel.checkBatch true true]).app.mounted = true
  ∧ (runTrace initialProcState [AppLabel.initThen ⟨true, true, none⟩,
        AppLabel.initFinally, AppLabel.checkBatch true true]).app.shutdown = false
  ∧ (runTrace initialProcState [AppLabel.initThen ⟨true, true, none⟩,
        AppLabel.initFinally, AppLabel.checkBatch true true,
        AppLabel.checkBatch true false]).app.mounted = false
  ∧ (runTrace initialProcState [AppLabel.initThen ⟨true, true, none⟩,
        AppLabel.initFinally, AppLabel.checkBatch true true,
        AppLabel.checkBatch true false]).app.shutdown = false := by decide

/-- C7 (amended): `mounted` is a rolling reachability flag — every
periodic batch completion reassigns it to that batch's queue-probe
result, and the assignment leaves `shutdown` unchanged; so it can
become true repeatedly and can revert to false while `shutdown` is
false. -/
theorem mounted_tracks_queue_probe (s : AppState) (rd rq : Bool) :
    (checkBatchUpdate s rd rq).mounted = rq
  ∧ (checkBatchUpdate s rd rq).shutdown = s.shutdown :=
  ⟨rfl, rfl⟩

/-- C8 (counterexample): a reachable run — healthy startup, a healthy
periodic batch, then cleanup sets `shutdown := true` while a second
batch is in flight — where that batch's completion callback is not a
no-op: it overwrites the connections record, `ready`, `mounted` and the
exit code even though `shutdown` is already true. -/
theorem inflight_batch_callback_not_noop :
    (runTrace initialProcState [AppLabel.initThen ⟨true, true, none⟩,
        AppLabel.initFinally, AppLabel.checkBatch true true,
        AppLabel.cleanupRun]).app.shutdown = true
  ∧ (runTrace initialProcState [AppLabel.initThen ⟨true, true, none⟩,
        AppLabel.initFinally, AppLabel.checkBatch true true,
        AppLabel.cleanupRun]).app.mounted = true
  ∧ (runTrace initialProcState [AppLabel.initThen ⟨true, true, none⟩,
        AppLabel.initFinally, AppLabel.checkBatch true true,
        AppLabel.cleanupRun, AppLabel.checkBatch true false]).app.mounted = false
  ∧ (runTrace initialProcState [AppLabel.initThen ⟨true, true, none⟩,
        AppLabel.initFinally, AppLabel.checkBatch true true,
        AppLabel.cleanupRun, AppLabel.checkBatch true false]).app.connections.queue
      = false
  ∧ (runTrace initialProcState [AppLabel.initThen ⟨true, true, none⟩,
        AppLabel.initFinally, AppLabel.checkBatch true true,
        AppLabel.cleanupRun, AppLabel.checkBatch true false]).app.ready = false
  ∧ (runTrace initialProcState [AppLabel.initThen ⟨true, true, none⟩,
        AppLabel.initFinally, AppLabel.checkBatch true true,
        AppLabel.cleanupRun, AppLabel.checkBatch true false]).exitCode = 1 := by
  decide

/-- C8 (amended): once the shutdown flag is true, a periodic tick
starts no new probe batch; but a batch already in flight still runs its
completion callback, which writes the connections record and `mounted`;
the callback cannot schedule a second cleanup, because the trigger
guard reads the now-true flag. -/
theorem post_shutdown_tick_and_callback (s : AppState) (rd rq : Bool)
    (h : s.shutdown = true) :
    checkConnectionsStarts s = false
  ∧ (checkBatchUpdate s rd rq).connections.data = rd
  ∧ (checkBatchUpdate s rd rq).connections.queue = rq
  ∧ (checkBatchUpdate s rd rq).mounted = rq
  ∧ shutdownSchedulesCleanup (checkBatchUpdate s rd rq) = false := by
  refine ⟨?_, rfl, rfl, rfl, ?_⟩
  · simp [checkConnectionsStarts, h]
  · simp [shutdownSchedulesCleanup, checkBatchUpdate, recomputeReady, h]

/-- Witness for C8's amended theorem at a concrete post-cleanup state. -/
theorem post_shutdown_tick_and_callback_witness :
    (runTrace initialProcState [AppLabel.cleanupRun]).app.shutdown = true
  ∧ (checkConnectionsStarts (runTrace initialProcState
        [AppLabel.cleanupRun]).app = false
    ∧ (checkBatchUpdate (runTrace initialProcState
          [AppLabel.cleanupRun]).app false true).connections.data = false
    ∧ (checkBatchUpdate (runTrace initialProcState
          [AppLabel.cleanupRun]).app false true).connections.queue = true
    ∧ (checkBatchUpdate (runTrace initialProcState
          [AppLabel.cleanupRun]).app false true).mounted = true
    ∧ shutdownSchedulesCleanup (checkBatchUpdate (runTrace initialProcState
          [AppLabel.cleanupRun]).app false true) = false) :=
  ⟨by decide, post_shutdown_tick_and_callback
    (runTrace initialProcState [AppLabel.cleanupRun]).app false true (by decide)⟩

/-- C9: whenever a periodic probe batch's completion callback leaves
`ready` false after the health-model update, it sets
`process.exitCode` to 1 and invokes the shutdown trigger. -/
theorem periodic_failure_sets_exit_and_triggers (p : ProcState)
    (rd rq : Bool) (h : (checkBatchEffects p rd rq).1.app.ready = false) :
    (checkBatchEffects p rd rq).1.exitCode = 1
  ∧ (checkBatchEffects p rd rq).2 = true := by
  simp only [checkBatchEffects] at h ⊢
  split at h
  · next hr =>
      rw [show ({ p with app := checkBatchUpdate p.app rd rq } : ProcState).app
            = checkBatchUpdate p.app rd rq from rfl] at h
      rw [h] at hr
      exact absurd hr (by simp)
  · next hr =>
      split
      · next hr2 => exact absurd hr2 hr
      · exact ⟨rfl, rfl⟩

/-- Witness for C9: the first periodic batch after startup reporting
the data store unhealthy. -/
theorem periodic_failure_witness :
    (checkBatchEffects initialProcState false true).1.app.ready = false
  ∧ ((checkBatchEffects initialProcState false true).1.exitCode = 1
    ∧ (checkBatchEffects initialProcState false true).2 = true) :=
  ⟨by decide, periodic_failure_sets_exit_and_triggers
    initialProcState false true (by decide)⟩

/-- C10 (counterexample): a reachable run in which a termination signal
arrives and cleanup runs before any periodic batch has completed (the
trigger at time 0 runs cleanup at time 5, before the first 10-unit
tick, and cleanup clears the probe interval): `mounted` is still false,
yet the gate responds 503 "Server is shutting down", not
503 "Server is not ready". -/
theorem gate_shutdown_before_first_batch :
    (runTrace initialProcState [AppLabel.signalTrigger,
        AppLabel.cleanupRun]).app.mounted = false
  ∧ gateMiddleware (runTrace initialProcState [AppLabel.signalTrigger,
        AppLabel.cleanupRun]).app
      = GateOutcome.respond503 "Server is shutting down"
  ∧ GateOutcome.respond503 "Server is shutting down"
      ≠ GateOutcome.respond503 "Server is not ready" := by decide

theorem runTrace_mounted_of_no_batch (p : ProcState) (tr : List AppLabel)
    (hm : p.app.mounted = false) (h : ∀ l ∈ tr, isCheckBatch l = false) :
    (runTrace p tr).app.mounted = false := by
  induction tr generalizing p with
  | nil => exact hm
  | cons l ls ih =>
      refine ih _ ?_ (fun x hx => h x (List.mem_cons_of_mem l hx))
      have hl := h l (List.mem_cons_self l ls)
      cases l with
      | initThen r => simpa [stepLabel, applyInitThen] using hm
      | initCatch =>
          simp only [stepLabel]
          split <;> simpa using hm
      | initFinally => simpa [stepLabel, recomputeReady] using hm
      | checkBatch rd rq => exact absurd hl (by simp [isCheckBatch])
      | cleanupRun => simpa [stepLabel] using hm
      | signalTrigger => simpa [stepLabel] using hm

/-- C10 (amended): `mounted` starts false and no callback other than a
periodic batch completion assigns it — in particular startup
initialization never does — so along every run containing no batch
completion, `mounted` stays false and, as long as the shutdown flag is
also still false, every gate evaluation responds
503 "Server is not ready" (even when `ready` is already true); once
the shutdown flag is true the gate instead responds
503 "Server is shutting down". -/
theorem gate_not_ready_before_first_batch (tr : List AppLabel)
    (h : ∀ l ∈ tr, isCheckBatch l = false) :
    (runTrace initialProcState tr).app.mounted = false
  ∧ ((runTrace initialProcState tr).app.shutdown = false →
      gateMiddleware (runTrace initialProcState tr).app
        = GateOutcome.respond503 "Server is not ready") := by
  have hm : (runTrace initialProcState tr).app.mounted = false :=
    runTrace_mounted_of_no_batch initialProcState tr rfl h
  exact ⟨hm, fun hs => by simp [gateMiddleware, hs, hm]⟩

/-- Witness for C10's amended theorem: a fully healthy startup batch
settles, `ready` is true, yet the gate still reports not ready because
`mounted` was never assigned. -/
theorem gate_not_ready_before_first_batch_witness :
    (runTrace initialProcState [AppLabel.initThen ⟨true, true, none⟩,
        AppLabel.initFinally]).app.ready = true
  ∧ (runTrace initialProcState [AppLabel.initThen ⟨true, true, none⟩,
        AppLabel.initFinally]).app.mounted = false
  ∧ gateMiddleware (runTrace initialProcState
        [AppLabel.initThen ⟨true, true, none⟩, AppLabel.initFinally]).app
      = GateOutcome.respond503 "Server is not ready" :=
  ⟨by decide,
    (gate_not_ready_before_first_batch
      [AppLabel.initThen ⟨true, true, none⟩, AppLabel.initFinally]
      (by decide)).1,
    (gate_not_ready_before_first_batch
      [AppLabel.initThen ⟨true, true, none⟩, AppLabel.initFinally]
      (by decide)).2 (by decide)⟩
